import Mathlib

/-!
Shallow embedding of the diversity-and-inclusion scoring engine of `v6.py`
(grade ladders, grade-to-number table, aggregate mean, age-balance
normalization, the fixed threshold table and the required-key validation).
Numbers are embedded as rationals; Python decimal literals such as `33.33`
are the exact rationals they denote.
-/

/-- Error values for the fallible code paths. `zeroDivisionError` and
`valueError` are the Python built-ins the source can actually raise; the
last two constructors carry the names the specification uses for its error
taxonomy, so that statements can compare against them (no class of either
name exists in the source). -/
inductive PyErr : Type
  | zeroDivisionError : PyErr
  | valueError : String → PyErr
  | invalidAggregateInput : PyErr
  | unknownIndicator : String → PyErr
  deriving DecidableEq, Repr

/-- The grade ladder `attribuer_note` of `v6.py`: maps a value to a letter
grade given a four-threshold list and a direction. Python list indexing
`seuils[i]` is embedded as `List.getD i 0`; every call site of the program
passes a four-element list, where the two agree. -/
def attribuer_note (valeur : ℚ) (seuils : List ℚ) (ordre_croissant : Bool) : String :=
  if ordre_croissant then
    if valeur ≥ seuils.getD 0 0 then "A"
    else if valeur ≥ seuils.getD 1 0 then "B"
    else if valeur ≥ seuils.getD 2 0 then "C"
    else if valeur ≥ seuils.getD 3 0 then "D"
    else "E"
  else
    if valeur ≤ seuils.getD 0 0 then "A"
    else if valeur ≤ seuils.getD 1 0 then "B"
    else if valeur ≤ seuils.getD 2 0 then "C"
    else if valeur ≤ seuils.getD 3 0 then "D"
    else "E"

/-- `note_vers_chiffre` of `v6.py`: the dictionary lookup
`{"A": 5, "B": 4, "C": 3, "D": 2, "E": 1}.get(note, 0)`, which returns the
default 0 on any string that is not one of the five letters. -/
def note_vers_chiffre (note : String) : ℤ :=
  if note = "A" then 5
  else if note = "B" then 4
  else if note = "C" then 3
  else if note = "D" then 2
  else if note = "E" then 1
  else 0

/-- `chiffre_vers_note` of `v6.py`: converts a numeric score back to a
letter with the fixed cut points 4.5, 3.5, 2.5, 1.5. -/
def chiffre_vers_note (score : ℚ) : String :=
  if score ≥ 4.5 then "A"
  else if score ≥ 3.5 then "B"
  else if score ≥ 2.5 then "C"
  else if score ≥ 1.5 then "D"
  else "E"

/-- `calculer_equilibre_age` of `v6.py`: mean absolute deviation of the
three age-bracket percentages from 33.33, normalized by 66.67 and scaled
to a percentage. -/
def calculer_equilibre_age (moins_30 entre_30_50 plus_50 : ℚ) : ℚ :=
  let distribution_ideale : ℚ := 33.33
  let ecart_moins_30 := |moins_30 - distribution_ideale|
  let ecart_entre_30_50 := |entre_30_50 - distribution_ideale|
  let ecart_plus_50 := |plus_50 - distribution_ideale|
  let ecart_moyen := (ecart_moins_30 + ecart_entre_30_50 + ecart_plus_50) / 3
  let score := 1 - ecart_moyen / 66.67
  score * 100

/-- The fixed `seuils` dictionary of `v6.py`: the threshold list for each
of the six indicators. -/
def seuils : List (String × List ℚ) :=
  [("taux_feminisation", [40, 35, 30, 25]),
   ("taux_femmes_cadres", [35, 30, 25, 20]),
   ("taux_handicap", [6, 5, 4, 3]),
   ("ecart_salaire", [2, 4, 8, 12]),
   ("equilibre_age", [85, 75, 65, 55]),
   ("taux_absenteisme", [2.5, 3.5, 4.5, 5.5])]

/-- Dictionary access `seuils[cle]`; each call site of the program uses a
key that is present in the table. -/
def seuils_de (cle : String) : List ℚ :=
  (List.lookup cle seuils).getD []

/-- The aggregate score expression of `v6.py`:
`sum(notes_numeriques.values()) / len(notes_numeriques)` over the numeric
grades. Python raises `ZeroDivisionError` when the collection is empty;
otherwise it is true division. -/
def score_global (notes : List String) : Except PyErr ℚ :=
  if notes.length = 0 then .error .zeroDivisionError
  else .ok ((notes.map (fun n => ((note_vers_chiffre n : ℤ) : ℚ))).sum / (notes.length : ℚ))

/-- The `indicateurs_requis` list of the report-generation section of
`v6.py`. -/
def indicateurs_requis : List String :=
  ["taux_feminisation", "taux_femmes_cadres", "taux_handicap",
   "ecart_salaire", "equilibre_age", "taux_absenteisme"]

/-- The validation loop of `v6.py` before report generation: the first
required key missing from the input raises a `ValueError`. The embedding
carries only numbers as values, so the `isinstance` branch of the loop
never fires. -/
def verifier_indicateurs (indicateurs : String → Option ℚ) : Except PyErr Unit :=
  match indicateurs_requis.find? (fun k => (indicateurs k).isNone) with
  | some k => .error (.valueError k)
  | none => .ok ()

/-- The evaluation pipeline of `v6.py`: validate that the six required
keys are present, grade each of the six fixed indicators against its
threshold ladder (pay gap and absenteeism are graded lower-is-better, the
rest higher-is-better), average the numeric grades and convert the
average back to a letter. Result rows are keyed here by indicator key;
the source attaches French display labels to the same six rows. -/
def evaluer (indicateurs : String → Option ℚ) :
    Except PyErr (List (String × String) × ℚ × String) :=
  match verifier_indicateurs indicateurs with
  | .error e => .error e
  | .ok _ =>
    let v := fun k => (indicateurs k).getD 0
    let resultats : List (String × String) :=
      [("taux_feminisation",
          attribuer_note (v "taux_feminisation") (seuils_de "taux_feminisation") true),
       ("taux_femmes_cadres",
          attribuer_note (v "taux_femmes_cadres") (seuils_de "taux_femmes_cadres") true),
       ("taux_handicap",
          attribuer_note (v "taux_handicap") (seuils_de "taux_handicap") true),
       ("ecart_salaire",
          attribuer_note (v "ecart_salaire") (seuils_de "ecart_salaire") false),
       ("equilibre_age",
          attribuer_note (v "equilibre_age") (seuils_de "equilibre_age") true),
       ("taux_absenteisme",
          attribuer_note (v "taux_absenteisme") (seuils_de "taux_absenteisme") false)]
    match score_global (resultats.map Prod.snd) with
    | .error e => .error e
    | .ok s => .ok (resultats, s, chiffre_vers_note s)

/-- The fixed per-grade point table exactly as the specification words it:
A maps to 5, B to 4, C to 3, D to 2, E to 1. Written from the
specification for comparison against `note_vers_chiffre`. -/
def specGradePoints (g : String) : ℚ :=
  if g = "A" then 5
  else if g = "B" then 4
  else if g = "C" then 3
  else if g = "D" then 2
  else 1

/-- A concrete input map holding all six required indicator values, each
sitting exactly at its grade-A boundary, together with one extra key that
is not in the fixed threshold table. -/
def exemple_indicateurs : String → Option ℚ := fun k =>
  if k = "taux_feminisation" then some 40
  else if k = "taux_femmes_cadres" then some 35
  else if k = "taux_handicap" then some 6
  else if k = "ecart_salaire" then some 2
  else if k = "equilibre_age" then some 85
  else if k = "taux_absenteisme" then some 2.5
  else if k = "indicateur_inconnu" then some 50
  else none

/-- C1: for every value and four-element threshold list, the grade ladder
follows exactly the stated inclusive comparison chain in both directions,
and a value equal to the best threshold receives grade A. -/
theorem c1_grade_ladder (v t0 t1 t2 t3 : ℚ) :
    attribuer_note v [t0, t1, t2, t3] true =
      (if v ≥ t0 then "A" else if v ≥ t1 then "B" else if v ≥ t2 then "C"
       else if v ≥ t3 then "D" else "E") ∧
    attribuer_note v [t0, t1, t2, t3] false =
      (if v ≤ t0 then "A" else if v ≤ t1 then "B" else if v ≤ t2 then "C"
       else if v ≤ t3 then "D" else "E") ∧
    attribuer_note t0 [t0, t1, t2, t3] true = "A" ∧
    attribuer_note t0 [t0, t1, t2, t3] false = "A" := by
  refine ⟨rfl, rfl, ?_, ?_⟩ <;> simp [attribuer_note]

/-- Each grade drawn from the five letters contributes its point value
from the specification table, so summing the program mapping equals
summing the specification mapping. -/
lemma sum_chiffres_eq_spec (notes : List String)
    (hval : ∀ n ∈ notes, n ∈ ["A", "B", "C", "D", "E"]) :
    (notes.map (fun n => ((note_vers_chiffre n : ℤ) : ℚ))).sum =
      (notes.map specGradePoints).sum := by
  induction notes with
  | nil => rfl
  | cons h t ih =>
    have hh := hval h (List.mem_cons_self h t)
    have ht : ∀ n ∈ t, n ∈ ["A", "B", "C", "D", "E"] :=
      fun n hn => hval n (List.mem_cons_of_mem h hn)
    simp only [List.map_cons, List.sum_cons, ih ht]
    fin_cases hh <;> norm_num [note_vers_chiffre, specGradePoints]

/-- C2: on any non-empty collection of valid grades the aggregate score
is the arithmetic mean of the fixed table A=5, B=4, C=3, D=2, E=1, and in
particular the three stated six-grade collections score 3, 5 and 1. -/
theorem c2_aggregate_mean (notes : List String) (hne : notes ≠ [])
    (hval : ∀ n ∈ notes, n ∈ ["A", "B", "C", "D", "E"]) :
    score_global notes =
      Except.ok ((notes.map specGradePoints).sum / (notes.length : ℚ)) ∧
    score_global ["A", "B", "C", "D", "E", "C"] = Except.ok 3 ∧
    score_global ["A", "A", "A", "A", "A", "A"] = Except.ok 5 ∧
    score_global ["E", "E", "E", "E", "E", "E"] = Except.ok 1 := by
  refine ⟨?_, by simp [score_global, note_vers_chiffre]; norm_num,
    by simp [score_global, note_vers_chiffre]; norm_num,
    by simp [score_global, note_vers_chiffre]; norm_num⟩
  have hlen : notes.length ≠ 0 := fun h => hne (List.length_eq_zero.mp h)
  unfold score_global
  rw [if_neg hlen, sum_chiffres_eq_spec notes hval]

/-- Witness for C2 at the six grades A, B, C, D, E, C. -/
theorem c2_aggregate_mean_witness :
    score_global ["A", "B", "C", "D", "E", "C"] =
      Except.ok (((["A", "B", "C", "D", "E", "C"].map specGradePoints)).sum /
        ((["A", "B", "C", "D", "E", "C"] : List String).length : ℚ)) ∧
    score_global ["A", "B", "C", "D", "E", "C"] = Except.ok 3 ∧
    score_global ["A", "A", "A", "A", "A", "A"] = Except.ok 5 ∧
    score_global ["E", "E", "E", "E", "E", "E"] = Except.ok 1 :=
  c2_aggregate_mean ["A", "B", "C", "D", "E", "C"] (by decide) (by decide)

/-- C3: the score-to-letter conversion follows exactly the stated cut
points 4.5, 3.5, 2.5 and 1.5, and this ladder differs from every
per-indicator threshold ladder of the fixed table. -/
theorem c3_aggregate_ladder :
    (∀ s : ℚ, chiffre_vers_note s =
      if s ≥ 4.5 then "A" else if s ≥ 3.5 then "B" else if s ≥ 2.5 then "C"
      else if s ≥ 1.5 then "D" else "E") ∧
    [(4.5 : ℚ), 3.5, 2.5, 1.5] ∉ seuils.map Prod.snd := by
  refine ⟨fun s => rfl, ?_⟩
  norm_num [seuils]

/-- C4: the age-balance calculator returns exactly the stated closed
formula with the constants 33.33 and 66.67, and its value at
(100, 0, 0) is within 0.01 of 33.33. -/
theorem c4_age_balance (a b c : ℚ) :
    calculer_equilibre_age a b c =
      (1 - ((|a - 33.33| + |b - 33.33| + |c - 33.33|) / 3) / 66.67) * 100 ∧
    |calculer_equilibre_age 100 0 0 - 33.33| < 1 / 100 := by
  refine ⟨rfl, ?_⟩
  rw [abs_sub_lt_iff]
  norm_num [calculer_equilibre_age, abs_of_nonneg, abs_of_nonpos]

/-- C5 counterexample: on the empty collection the aggregate score
expression does not produce the error named by the claim. -/
theorem c5_counterexample :
    ¬ (score_global [] = Except.error PyErr.invalidAggregateInput) := by
  simp [score_global]

/-- C5 amended: on the empty collection the aggregate score expression
fails with a division-by-zero error and never returns a number. -/
theorem c5_amended :
    score_global [] = Except.error PyErr.zeroDivisionError ∧
    ∀ q : ℚ, score_global [] ≠ Except.ok q := by
  refine ⟨rfl, fun q h => ?_⟩
  simp [score_global] at h

/-- C6 counterexample: the concrete input carries a key that is not in the
fixed threshold table, yet the evaluation succeeds and computes the
aggregate instead of failing. -/
theorem c6_counterexample :
    exemple_indicateurs "indicateur_inconnu" = some 50 ∧
    (∀ p ∈ seuils, p.1 ≠ "indicateur_inconnu") ∧
    evaluer exemple_indicateurs =
      Except.ok ([("taux_feminisation", "A"), ("taux_femmes_cadres", "A"),
        ("taux_handicap", "A"), ("ecart_salaire", "A"), ("equilibre_age", "A"),
        ("taux_absenteisme", "A")], 5, "A") := by
  refine ⟨rfl, by simp [seuils], ?_⟩
  have hv : verifier_indicateurs exemple_indicateurs = Except.ok () := rfl
  have e1 : exemple_indicateurs "taux_feminisation" = some 40 := rfl
  have e2 : exemple_indicateurs "taux_femmes_cadres" = some 35 := rfl
  have e3 : exemple_indicateurs "taux_handicap" = some 6 := rfl
  have e4 : exemple_indicateurs "ecart_salaire" = some 2 := rfl
  have e5 : exemple_indicateurs "equilibre_age" = some 85 := rfl
  have e6 : exemple_indicateurs "taux_absenteisme" = some 2.5 := rfl
  have s1 : seuils_de "taux_feminisation" = [40, 35, 30, 25] := rfl
  have s2 : seuils_de "taux_femmes_cadres" = [35, 30, 25, 20] := rfl
  have s3 : seuils_de "taux_handicap" = [6, 5, 4, 3] := rfl
  have s4 : seuils_de "ecart_salaire" = [2, 4, 8, 12] := rfl
  have s5 : seuils_de "equilibre_age" = [85, 75, 65, 55] := rfl
  have s6 : seuils_de "taux_absenteisme" = [2.5, 3.5, 4.5, 5.5] := rfl
  unfold evaluer
  rw [hv]
  simp only [e1, e2, e3, e4, e5, e6, s1, s2, s3, s4, s5, s6, Option.getD_some]
  norm_num [attribuer_note, score_global, note_vers_chiffre, chiffre_vers_note]

/-- C6 amended: an indicator key outside the six fixed ones is silently
ignored: whenever the six required keys are present the evaluation
succeeds (extra keys never cause a failure, and the aggregate is still
computed), and the only rejection the validation performs is a ValueError
for a missing required key. -/
theorem c6_amended (indicateurs : String → Option ℚ)
    (hall : ∀ k ∈ indicateurs_requis, (indicateurs k).isSome = true) :
    (∃ r, evaluer indicateurs = Except.ok r) ∧
    verifier_indicateurs (fun _ => none) =
      Except.error (PyErr.valueError "taux_feminisation") := by
  refine ⟨?_, rfl⟩
  have hfind : indicateurs_requis.find? (fun k => (indicateurs k).isNone) = none := by
    rw [List.find?_eq_none]
    intro k hk
    have h := hall k hk
    cases hx : indicateurs k with
    | none => rw [hx] at h; simp at h
    | some v => simp [hx]
  have hv : verifier_indicateurs indicateurs = Except.ok () := by
    unfold verifier_indicateurs
    rw [hfind]
  unfold evaluer
  rw [hv]
  simp only [score_global]
  exact ⟨_, rfl⟩

/-- Witness for C6: the example input has all six required keys. -/
theorem c6_amended_witness :
    (∃ r, evaluer exemple_indicateurs = Except.ok r) ∧
    verifier_indicateurs (fun _ => none) =
      Except.error (PyErr.valueError "taux_feminisation") :=
  c6_amended exemple_indicateurs (by decide)

/-- Each valid grade is worth between 1 and 5 points, so the sum of the
numeric grades lies between the length and five times the length. -/
lemma sum_chiffres_bounds (notes : List String)
    (hval : ∀ n ∈ notes, n ∈ ["A", "B", "C", "D", "E"]) :
    (notes.length : ℚ) ≤ (notes.map (fun n => ((note_vers_chiffre n : ℤ) : ℚ))).sum ∧
    (notes.map (fun n => ((note_vers_chiffre n : ℤ) : ℚ))).sum ≤ 5 * (notes.length : ℚ) := by
  induction notes with
  | nil => simp
  | cons h t ih =>
    have hh := hval h (List.mem_cons_self h t)
    have ht : ∀ n ∈ t, n ∈ ["A", "B", "C", "D", "E"] :=
      fun n hn => hval n (List.mem_cons_of_mem h hn)
    obtain ⟨ih1, ih2⟩ := ih ht
    have hb : (1 : ℚ) ≤ ((note_vers_chiffre h : ℤ) : ℚ) ∧
        ((note_vers_chiffre h : ℤ) : ℚ) ≤ 5 := by
      fin_cases hh <;> simp [note_vers_chiffre] <;> norm_num
    simp only [List.map_cons, List.sum_cons, List.length_cons]
    push_cast
    exact ⟨by linarith [hb.1], by linarith [hb.2]⟩

/-- C7: for any assignment of valid grades to the six indicators the
aggregate score is a number in the closed interval from 1 to 5. -/
theorem c7_aggregate_bounds (notes : List String) (hlen : notes.length = 6)
    (hval : ∀ n ∈ notes, n ∈ ["A", "B", "C", "D", "E"]) :
    ∃ s, score_global notes = Except.ok s ∧ 1 ≤ s ∧ s ≤ 5 := by
  obtain ⟨h1, h2⟩ := sum_chiffres_bounds notes hval
  rw [hlen] at h1 h2
  have hne : notes.length ≠ 0 := by rw [hlen]; norm_num
  refine ⟨(notes.map (fun n => ((note_vers_chiffre n : ℤ) : ℚ))).sum /
      (notes.length : ℚ), ?_, ?_, ?_⟩
  · unfold score_global
    rw [if_neg hne]
  · rw [hlen]; push_cast at h1 ⊢; linarith
  · rw [hlen]; push_cast at h2 ⊢; linarith

/-- Witness for C7 at the six grades A, B, C, D, E, C. -/
theorem c7_aggregate_bounds_witness :
    ∃ s, score_global ["A", "B", "C", "D", "E", "C"] = Except.ok s ∧
      1 ≤ s ∧ s ≤ 5 :=
  c7_aggregate_bounds ["A", "B", "C", "D", "E", "C"] rfl (by decide)

/-- C8: under strictly decreasing thresholds and the higher-is-better
direction, a larger value never receives a worse grade, where goodness of
a grade is its numeric point value. -/
theorem c8_grade_monotone (v1 v2 t0 t1 t2 t3 : ℚ)
    (ht : t0 > t1 ∧ t1 > t2 ∧ t2 > t3) (hv : v1 ≤ v2) :
    note_vers_chiffre (attribuer_note v1 [t0, t1, t2, t3] true) ≤
      note_vers_chiffre (attribuer_note v2 [t0, t1, t2, t3] true) := by
  have g0 : [t0, t1, t2, t3].getD 0 0 = t0 := rfl
  have g1 : [t0, t1, t2, t3].getD 1 0 = t1 := rfl
  have g2 : [t0, t1, t2, t3].getD 2 0 = t2 := rfl
  have g3 : [t0, t1, t2, t3].getD 3 0 = t3 := rfl
  simp only [attribuer_note, if_true, g0, g1, g2, g3]
  split_ifs <;> simp [note_vers_chiffre] <;> linarith

/-- Witness for C8 at values 1 and 2 with thresholds 10, 8, 6, 4. -/
theorem c8_grade_monotone_witness :
    note_vers_chiffre (attribuer_note 1 [10, 8, 6, 4] true) ≤
      note_vers_chiffre (attribuer_note 2 [10, 8, 6, 4] true) :=
  c8_grade_monotone 1 2 10 8 6 4 (by norm_num) (by norm_num)

/-- C9: the age-balance calculator never clamps: whenever the mean
absolute deviation from 33.33 exceeds 66.67 the returned balance is
strictly negative. -/
theorem c9_negative_balance (a b c : ℚ)
    (h : (|a - 33.33| + |b - 33.33| + |c - 33.33|) / 3 > 66.67) :
    calculer_equilibre_age a b c < 0 := by
  simp only [calculer_equilibre_age]
  have h67 : (0 : ℚ) < 66.67 := by norm_num
  have h2 : 1 < (|a - 33.33| + |b - 33.33| + |c - 33.33|) / 3 / 66.67 :=
    (one_lt_div h67).mpr h
  linarith

/-- Witness for C9 at the pathological percentages 300, 0, 0. -/
theorem c9_negative_balance_witness :
    (|(300 : ℚ) - 33.33| + |(0 : ℚ) - 33.33| + |(0 : ℚ) - 33.33|) / 3 > 66.67 ∧
    calculer_equilibre_age 300 0 0 < 0 :=
  ⟨by norm_num [abs_of_nonneg, abs_of_nonpos],
   c9_negative_balance 300 0 0 (by norm_num [abs_of_nonneg, abs_of_nonpos])⟩

/-- C10: any string other than the five grade letters converts to 0
points, and a six-element aggregate holding five E grades and one
malformed grade scores five sixths, strictly below the documented
minimum of 1. -/
theorem c10_malformed_grade_zero (s : String)
    (h : s ∉ ["A", "B", "C", "D", "E"]) :
    note_vers_chiffre s = 0 ∧
    score_global ["E", "E", "E", "E", "E", "X"] = Except.ok (5 / 6) ∧
    (5 / 6 : ℚ) < 1 := by
  refine ⟨?_, by simp [score_global, note_vers_chiffre]; norm_num, by norm_num⟩
  simp only [List.mem_cons, List.not_mem_nil, or_false, not_or] at h
  obtain ⟨h1, h2, h3, h4, h5⟩ := h
  simp [note_vers_chiffre, h1, h2, h3, h4, h5]

/-- Witness for C10 at the malformed grade string X. -/
theorem c10_malformed_grade_zero_witness :
    note_vers_chiffre "X" = 0 ∧
    score_global ["E", "E", "E", "E", "E", "X"] = Except.ok (5 / 6) ∧
    (5 / 6 : ℚ) < 1 :=
  c10_malformed_grade_zero "X" (by decide)
